import Mathlib

/-!
Verification of the email auto-reply agent (`main_email_agent.py`) and its
Telegram approval front end (`telegram_email_bot.py`).

The Python code is shallowly embedded: strings are Lean `String`s, the
in-memory seen-set is a `List String`, the per-operator pending-draft map is
an association list, and the external collaborators (IMAP server, SMTP
session, Gemini call) are explicit parameters or oracles.
-/

/-- Substring start test on character lists (`listStartsWith s p` iff `p` is
an initial segment of `s`). -/
def listStartsWith : List Char → List Char → Bool
  | _, [] => true
  | [], _ :: _ => false
  | c :: cs, p :: ps => c == p && listStartsWith cs ps

/-- Occurrence test on character lists, mirroring Python `pat in s`. -/
def listHasSub : List Char → List Char → Bool
  | [], pat => pat.isEmpty
  | c :: cs, pat => listStartsWith (c :: cs) pat || listHasSub cs pat

/-- Python `pat in s` on strings. -/
def strHasSub (s pat : String) : Bool := listHasSub s.data pat.data

/-- Python `s.lower()` (ASCII case folding suffices for the keyword sets). -/
def py_lower (s : String) : String := String.mk (s.data.map Char.toLower)

/-- Python `s.strip()`. -/
def py_strip (s : String) : String :=
  String.mk (((s.data.dropWhile Char.isWhitespace).reverse.dropWhile Char.isWhitespace).reverse)

/-- First whitespace-separated word, Python `s.split()[0]` for a stripped
nonempty `s`. -/
def first_word (s : String) : String :=
  String.mk (s.data.takeWhile (fun c => !c.isWhitespace))

/-- Python `sender.split('<')[0]`: the segment before the first `<`. -/
def split_head_lt (sender : String) : String :=
  String.mk (sender.data.takeWhile (fun c => c != '<'))

/-- Python `any(word in content for word in words)`. -/
def containsAny (content : String) (words : List String) : Bool :=
  words.any (fun w => strHasSub content w)

/-- A fetched email as built by `read_new_emails` (the `date` field is
irrelevant to every claim and omitted). -/
structure EmailData where
  id : String
  subject : String
  sender : String
  body : String
deriving Repr, DecidableEq

/-- Sender-name extraction shared by the reply generators: the first word of
the stripped prefix before `<`, defaulting to `"there"`. -/
def extract_sender_name (sender : String) : String :=
  if sender.data.contains '<' then
    let name_part := py_strip (split_head_lt sender)
    if name_part = "" then "there" else first_word name_part
  else "there"

/-- The lower-cased scan string `content = f"{subject} {body}"`. -/
def scan_content (e : EmailData) : String :=
  py_lower e.subject ++ " " ++ py_lower e.body

def social_words : List String := ["dinner", "lunch", "coffee", "drink", "hang out", "meet up"]

def avail_words : List String := ["free", "available", "time", "when", "schedule"]

def work_words : List String := ["leave", "office", "work", "meeting", "project"]

def meeting_words : List String := ["call", "appointment", "zoom", "teams"]

def business_words : List String := ["business", "collaboration", "proposal"]

def urgent_words : List String := ["urgent", "asap", "emergency", "immediate", "important"]

def question_words : List String := ["question", "help", "support", "how", "what", "why", "?"]

/-- Reply text for the dinner/social-invitation branch.  The source f-string
uses `\\n`, i.e. a literal backslash followed by `n`, not a newline. -/
def social_reply (n : String) : String :=
  "Dear " ++ n ++ ",\\n\\nThank you for the invitation! I\x27d love to catch up. Let me check my schedule and I\x27ll get back to you shortly with some available times.\\n\\nLooking forward to it!\\n\\nBest regards,\\nYash"

/-- Reply text for the availability/scheduling branch. -/
def avail_reply (n : String) : String :=
  "Dear " ++ n ++ ",\\n\\nThanks for reaching out about my availability. I\x27ll review my calendar and send you some time slots that work for both of us.\\n\\nI\x27ll get back to you within a few hours.\\n\\nBest regards,\\nYash"

/-- Reply text for the office/work branch. -/
def work_reply (n : String) : String :=
  "Dear " ++ n ++ ",\\n\\nThank you for your message regarding work matters. I\x27ve received your request and will review it promptly.\\n\\nI\x27ll respond with the necessary information soon.\\n\\nBest regards,\\nYash"

/-- Reply text for the meeting-request branch. -/
def meeting_reply (n : String) : String :=
  "Dear " ++ n ++ ",\\n\\nThank you for reaching out about scheduling a meeting. I\x27ll review my calendar and get back to you shortly with my availability.\\n\\nBest regards,\\nYash"

/-- Reply text for the business/collaboration branch. -/
def business_reply (n : String) : String :=
  "Dear " ++ n ++ ",\\n\\nThank you for your message regarding the business opportunity. I\x27m interested in learning more about this collaboration.\\n\\nI\x27ll review the details and respond with my thoughts soon.\\n\\nBest regards,\\nYash"

/-- Reply text for the urgent branch. -/
def urgent_reply (n : String) : String :=
  "Dear " ++ n ++ ",\\n\\nI\x27ve received your urgent message and will prioritize reviewing it immediately. You can expect a detailed response within the next hour.\\n\\nBest regards,\\nYash"

/-- Reply text for the question branch. -/
def question_reply (n : String) : String :=
  "Dear " ++ n ++ ",\\n\\nThank you for your question. I\x27ll look into this and provide you with a comprehensive answer shortly.\\n\\nBest regards,\\nYash"

/-- Default acknowledgment reply text. -/
def default_reply (n : String) : String :=
  "Dear " ++ n ++ ",\\n\\nThank you for your email. I\x27ve received your message and will review it carefully. I\x27ll get back to you with a detailed response soon.\\n\\nBest regards,\\nYash"

/-- `generate_improved_mock_reply`: the template reply generator, an ordered
if/elif chain of keyword tests over the lower-cased subject-plus-body. -/
def generate_improved_mock_reply (e : EmailData) : String :=
  let n := extract_sender_name e.sender
  let content := scan_content e
  if containsAny content social_words then social_reply n
  else if containsAny content avail_words then avail_reply n
  else if containsAny content work_words then work_reply n
  else if containsAny content meeting_words then meeting_reply n
  else if containsAny content business_words then business_reply n
  else if containsAny content urgent_words then urgent_reply n
  else if containsAny content question_words then question_reply n
  else default_reply n

/-- The reply categories of the generator, `ack` being the default branch. -/
inductive ReplyCategory where
  | social | avail | work | meeting | business | urgent | question | ack
deriving Repr, DecidableEq

/-- Keyword set of each category (empty for the default branch). -/
def category_words : ReplyCategory → List String
  | .social => social_words
  | .avail => avail_words
  | .work => work_words
  | .meeting => meeting_words
  | .business => business_words
  | .urgent => urgent_words
  | .question => question_words
  | .ack => []

/-- Template of each category. -/
def category_reply : ReplyCategory → String → String
  | .social => social_reply
  | .avail => avail_reply
  | .work => work_reply
  | .meeting => meeting_reply
  | .business => business_reply
  | .urgent => urgent_reply
  | .question => question_reply
  | .ack => default_reply

/-- The fixed priority order in which the categories are scanned. -/
def priority_order : List ReplyCategory :=
  [.social, .avail, .work, .meeting, .business, .urgent, .question]

/-- Spec-side classifier, following the spec's words: the first category in
the fixed priority order whose keyword set matches the scan string, and the
default acknowledgment category when none matches. -/
def spec_first_matching_category (content : String) : ReplyCategory :=
  (priority_order.find? (fun c => containsAny content (category_words c))).getD .ack

/-- `generate_gemini_reply` together with the log line it emits.  The oracle
models the `gemini_model.generate_content(prompt)` call followed by
`response.text`: `.ok txt` is a successful call, `.error err` is any raised
exception whose message is `err`.  On success the stripped text is returned
and a fixed info line logged; on failure the template reply is returned and
an error line embedding the exception text is logged. -/
def generate_gemini_reply_full (oracle : EmailData → Except String String)
    (e : EmailData) : String × List String :=
  match oracle e with
  | .ok txt => (py_strip txt, ["Generated Gemini AI reply"])
  | .error err => (generate_improved_mock_reply e, ["Gemini reply generation failed: " ++ err])

/-- The reply text of `generate_gemini_reply`, logs dropped. -/
def generate_gemini_reply (oracle : EmailData → Except String String) (e : EmailData) : String :=
  (generate_gemini_reply_full oracle e).1

/-- The log line of the `except` branch of `setup_gemini`: a fixed string
that ignores the raised error. -/
def setup_gemini_fail_log (_err : String) : String :=
  "Failed to setup Gemini - check API key configuration"

/-- `generate_ai_reply`: Gemini only when the config flag is on and the model
was initialized, otherwise the template generator. -/
def generate_ai_reply (aiEnabled : Bool)
    (geminiModel : Option (EmailData → Except String String)) (e : EmailData) : String :=
  match geminiModel, aiEnabled with
  | some oracle, true => generate_gemini_reply oracle e
  | some _, false => generate_improved_mock_reply e
  | none, _ => generate_improved_mock_reply e

/-- An outgoing MIME message: header fields plus (subtype, content) parts as
attached by `MIMEText(body, 'plain')`. -/
structure MailMessage where
  fromAddr : String
  toAddr : String
  subject : String
  parts : List (String × String)
deriving Repr, DecidableEq

/-- The message both send paths construct: From/To/Subject headers and the
body as the sole `plain` content part. -/
def mk_plain_message (fromA toA subj bodyTxt : String) : MailMessage :=
  { fromAddr := fromA, toAddr := toA, subject := subj, parts := [("plain", bodyTxt)] }

/-- `send_custom_email`: when the SMTP session is absent, `connect_email()`
is attempted first (outcome `connect_ok`); then the message is built and
sent (`send_ok` models whether `sendmail` raises).  Returns
(reported success, SMTP session present afterwards, messages sent). -/
def send_custom_email (smtpConnected connect_ok send_ok : Bool)
    (selfEmail recipient subj bodyTxt : String) : Bool × Bool × List MailMessage :=
  let conn := if smtpConnected then true else connect_ok
  if conn then
    if send_ok then (true, conn, [mk_plain_message selfEmail recipient subj bodyTxt])
    else (false, conn, [])
  else (false, conn, [])

/-- `send_reply`: returns failure immediately when the SMTP session is
absent (no reconnect); otherwise sends to the original sender with the
subject prefixed by `"Re: "`. -/
def send_reply (smtpConnected send_ok : Bool) (selfEmail : String)
    (orig : EmailData) (replyText : String) : Bool × Bool × List MailMessage :=
  if smtpConnected then
    if send_ok then
      (true, true, [mk_plain_message selfEmail orig.sender ("Re: " ++ orig.subject) replyText])
    else (false, true, [])
  else (false, false, [])

/-- An unseen message as it sits on the server; `fetch_ok` models whether
the per-message FETCH/parse succeeds without raising. -/
structure ServerEmail where
  id : String
  subject : String
  sender : String
  body : String
  fetch_ok : Bool
deriving Repr, DecidableEq

/-- The `email_data` dict built from a fetched message. -/
def emailDataOf (s : ServerEmail) : EmailData :=
  { id := s.id, subject := s.subject, sender := s.sender, body := s.body }

/-- Python slice `email_ids[-max:]`; with `max = 0` the slice is the whole
list (`-0 == 0`). -/
def last_slice (n : Nat) (l : List ServerEmail) : List ServerEmail :=
  if n = 0 then l else l.drop (l.length - n)

/-- The per-message loop of `read_new_emails`: skip identifiers already in
the seen-set; on a successful fetch, collect the message and add its id to
the seen-set immediately; on a fetch failure, skip without marking. -/
def read_new_emails_aux : List ServerEmail → List String → List EmailData × List String
  | [], processed => ([], processed)
  | e :: rest, processed =>
    if e.id ∈ processed then read_new_emails_aux rest processed
    else if e.fetch_ok then
      (emailDataOf e :: (read_new_emails_aux rest (e.id :: processed)).1,
       (read_new_emails_aux rest (e.id :: processed)).2)
    else read_new_emails_aux rest processed

/-- `read_new_emails`: nothing when the IMAP session is absent, else the
last `maxN` unseen messages filtered through the seen-set. -/
def read_new_emails (imapConnected : Bool) (maxN : Nat) (inbox : List ServerEmail)
    (processed : List String) : List EmailData × List String :=
  if imapConnected then read_new_emails_aux (last_slice maxN inbox) processed
  else ([], processed)

/-- One `process_emails` cycle: nothing when auto-reply is disabled, else
read the new emails and attempt exactly one reply for each (the Bool records
the `send_reply` outcome, which does not feed back into the state). -/
def process_emails (autoReply imapConnected : Bool) (maxN : Nat)
    (sendOutcome : EmailData → Bool) (inbox : List ServerEmail)
    (processed : List String) : List (EmailData × Bool) × List String :=
  if autoReply then
    ((read_new_emails imapConnected maxN inbox processed).1.map (fun d => (d, sendOutcome d)),
     (read_new_emails imapConnected maxN inbox processed).2)
  else ([], processed)

/-- The poll loop of `run`: one `process_emails` cycle per inbox snapshot,
threading the seen-set; returns all reply attempts and the final seen-set. -/
def run_poll_cycles (autoReply imapConnected : Bool) (maxN : Nat)
    (sendOutcome : EmailData → Bool) :
    List (List ServerEmail) → List String → List (EmailData × Bool) × List String
  | [], processed => ([], processed)
  | inbox :: rest, processed =>
    ((process_emails autoReply imapConnected maxN sendOutcome inbox processed).1 ++
       (run_poll_cycles autoReply imapConnected maxN sendOutcome rest
         (process_emails autoReply imapConnected maxN sendOutcome inbox processed).2).1,
     (run_poll_cycles autoReply imapConnected maxN sendOutcome rest
       (process_emails autoReply imapConnected maxN sendOutcome inbox processed).2).2)

/-- The message identifiers of a list of reply attempts. -/
def attempt_ids (l : List (EmailData × Bool)) : List String :=
  l.map (fun a => a.1.id)

/-- The Telegram `/read` handler fetches through the very same
`agent.read_new_emails()` as the auto-reply loop. -/
def read_command (imapConnected : Bool) (maxN : Nat) (inbox : List ServerEmail)
    (processed : List String) : List EmailData × List String :=
  read_new_emails imapConnected maxN inbox processed

/-- One part yielded by `email_message.walk()`: its content type, the string
form of its Content-Disposition header (`"None"` when absent), and the
result of `get_payload(decode=True).decode()` (`none` when it raises). -/
structure EmailPart where
  content_type : String
  content_disposition : String
  decoded : Option String
deriving Repr, DecidableEq

/-- A parsed message: multi-part with its walk sequence of sub-parts (the
multipart container itself never has type `text/plain`, so it is dropped),
or single-part with its decode result and the string form of its raw
payload, `str(get_payload())`. -/
inductive PyEmailMessage where
  | multipart (parts : List EmailPart)
  | simple (decoded : Option String) (payload_str : String)
deriving Repr, DecidableEq

/-- The part filter of `get_email_body`: `text/plain` and not flagged as an
attachment. -/
def suitable_part (p : EmailPart) : Bool :=
  p.content_type == "text/plain" && !(strHasSub p.content_disposition "attachment")

/-- The multi-part loop of `get_email_body`: the first suitable part whose
payload decodes; a decode failure moves on to the next part; no match
leaves the body empty. -/
def scan_parts : List EmailPart → String
  | [] => ""
  | p :: rest =>
    if suitable_part p then
      match p.decoded with
      | some s => s
      | none => scan_parts rest
    else scan_parts rest

/-- `get_email_body`, ending in `body.strip()`.  In the single-part case a
decode failure falls back to `str(email_message.get_payload())`. -/
def get_email_body : PyEmailMessage → String
  | .multipart parts => py_strip (scan_parts parts)
  | .simple dec payload_str =>
    py_strip (match dec with | some s => s | none => payload_str)

/-- A pending draft of the Telegram front end. -/
structure Draft where
  recipient : String
  subject : String
  body : String
deriving Repr, DecidableEq

/-- The module-level `pending_emails` dict, keyed by operator (user) id. -/
abbrev DraftMap := List (Nat × Draft)

/-- Dict lookup `pending_emails.get(u)`. -/
def dm_lookup (m : DraftMap) (u : Nat) : Option Draft :=
  (m.find? (fun p => p.1 == u)).map (fun p => p.2)

/-- Removal of the key `u` (the effect of `pending_emails.pop(u, None)`). -/
def dm_erase (m : DraftMap) (u : Nat) : DraftMap :=
  m.filter (fun p => p.1 != u)

/-- Dict assignment `pending_emails[u] = d` (overwrites any old draft). -/
def dm_insert (m : DraftMap) (u : Nat) (d : Draft) : DraftMap :=
  (u, d) :: dm_erase m u

/-- `/mail` handler: with fewer than two arguments only a usage message;
otherwise stores a pending draft with the fixed subject and the remaining
arguments joined by spaces as body. -/
def mail_command (m : DraftMap) (u : Nat) (args : List String) : String × DraftMap :=
  if args.length < 2 then ("Usage: /mail recipient@example.com message", m)
  else
    ("Preview:\nTo: " ++ args.headD "" ++ "\nSubject: Message from Telegram\nBody: "
       ++ " ".intercalate (args.drop 1)
       ++ "\n\nReply /approve to send or /cancel to abort.",
     dm_insert m u ⟨args.headD "", "Message from Telegram", " ".intercalate (args.drop 1)⟩)

/-- `/approve` handler: pops the operator draft first; when one was present
it is sent via `send_custom_email` (outcome modelled by `send`) and the
reported text reflects the outcome; the third component lists the send
calls made. -/
def approve_command (send : Draft → Bool) (m : DraftMap) (u : Nat) :
    String × DraftMap × List Draft :=
  match dm_lookup m u with
  | some d =>
    (if send d then "✅ Email sent!" else "❌ Failed to send email.", dm_erase m u, [d])
  | none => ("No pending email to approve.", m, [])

/-- `/cancel` handler: pops the operator draft, reporting which case hit. -/
def cancel_command (m : DraftMap) (u : Nat) : String × DraftMap :=
  match dm_lookup m u with
  | some _ => ("Pending email cancelled.", dm_erase m u)
  | none => ("No pending email to cancel.", m)

/-- The end-to-end example message of the spec. -/
def ex_coffee : EmailData :=
  { id := "1", subject := "Quick coffee?", sender := "Jane Doe <jane@x.com>",
    body := "Are you free Thursday?" }

/-- A message whose body holds both `urgent` and `dinner`. -/
def ex_urgent_dinner : EmailData :=
  { id := "2", subject := "Hello", sender := "Sam <sam@x.com>",
    body := "This is urgent, dinner tonight?" }

/-- A concrete unseen server message. -/
def ex_server_email : ServerEmail :=
  { id := "101", subject := "Quick coffee?", sender := "Jane Doe <jane@x.com>",
    body := "Are you free Thursday?", fetch_ok := true }

/-- A generation-service error payload with an embedded credential. -/
def leaky_error : String := "403 PERMISSION_DENIED for key AIzaSECRETKEY123"

/-- A substring of a list is a substring of any right extension. -/
theorem listHasSub_append_right {p : List Char} :
    ∀ (l₁ l₂ : List Char), listHasSub l₂ p = true → listHasSub (l₁ ++ l₂) p = true
  | [], _, h => h
  | c :: cs, l₂, h => by
    show (listStartsWith (c :: (cs ++ l₂)) p || listHasSub (cs ++ l₂) p) = true
    rw [listHasSub_append_right cs l₂ h, Bool.or_true]

/-- A substring of `b` occurs in `a ++ b`. -/
theorem strHasSub_append_right {a b p : String} (h : strHasSub b p = true) :
    strHasSub (a ++ b) p = true := by
  unfold strHasSub at h ⊢
  rw [String.data_append]
  exact listHasSub_append_right a.data b.data h

/-- A keyword list matches as soon as one of its members occurs. -/
theorem containsAny_of_mem {c w : String} {ws : List String} (hm : w ∈ ws)
    (h : strHasSub c w = true) : containsAny c ws = true := by
  unfold containsAny
  exact List.any_eq_true.mpr ⟨w, hm, h⟩

/-- C1: for every sender, subject and body, the template reply generator
returns the template of the first category, in the fixed priority order
social invitation, availability, work, meeting-request, business, urgency,
question, whose keyword set matches the lower-cased subject-plus-body scan
string, and the default acknowledgment when none matches; in particular a
body containing both `urgent` and `dinner` selects the social-invitation
category. -/
theorem mock_reply_priority_order (e : EmailData) :
    generate_improved_mock_reply e
      = category_reply (spec_first_matching_category (scan_content e))
          (extract_sender_name e.sender)
    ∧ (strHasSub (py_lower e.body) "urgent" = true →
       strHasSub (py_lower e.body) "dinner" = true →
       spec_first_matching_category (scan_content e) = ReplyCategory.social) := by
  constructor
  · cases h1 : containsAny (scan_content e) social_words <;>
    cases h2 : containsAny (scan_content e) avail_words <;>
    cases h3 : containsAny (scan_content e) work_words <;>
    cases h4 : containsAny (scan_content e) meeting_words <;>
    cases h5 : containsAny (scan_content e) business_words <;>
    cases h6 : containsAny (scan_content e) urgent_words <;>
    cases h7 : containsAny (scan_content e) question_words <;>
    simp [generate_improved_mock_reply, spec_first_matching_category, priority_order,
      List.find?, category_words, category_reply, h1, h2, h3, h4, h5, h6, h7]
  · intro _ hd
    have hc : strHasSub (scan_content e) "dinner" = true := by
      have h := strHasSub_append_right (a := py_lower e.subject ++ " ") hd
      simpa [scan_content] using h
    have hca : containsAny (scan_content e) social_words = true :=
      containsAny_of_mem (by simp [social_words]) hc
    simp [spec_first_matching_category, priority_order, List.find?, category_words, hca]

@[simp] theorem emailDataOf_id (e : ServerEmail) : (emailDataOf e).id = e.id := rfl

/-- The seen-set only grows during a read pass. -/
theorem read_aux_processed_mono {x : String} :
    ∀ (l : List ServerEmail) (p : List String), x ∈ p → x ∈ (read_new_emails_aux l p).2
  | [], _, hx => hx
  | e :: rest, p, hx => by
    unfold read_new_emails_aux
    split
    · exact read_aux_processed_mono rest p hx
    · split
      · exact read_aux_processed_mono rest (e.id :: p) (List.mem_cons_of_mem _ hx)
      · exact read_aux_processed_mono rest p hx

/-- Every collected message was not in the seen-set before the pass and is in it after. -/
theorem read_aux_mem {x : String} :
    ∀ (l : List ServerEmail) (p : List String),
      x ∈ ((read_new_emails_aux l p).1.map EmailData.id) →
      x ∉ p ∧ x ∈ (read_new_emails_aux l p).2
  | [], p, hx => by simp [read_new_emails_aux] at hx
  | e :: rest, p, hx => by
    unfold read_new_emails_aux at hx ⊢
    by_cases h1 : e.id ∈ p
    · rw [if_pos h1] at hx ⊢
      exact read_aux_mem rest p hx
    · rw [if_neg h1] at hx ⊢
      by_cases h2 : e.fetch_ok = true
      · rw [if_pos h2] at hx ⊢
        simp only [List.map_cons, List.mem_cons, emailDataOf_id] at hx
        rcases hx with hx | hx
        · subst hx
          exact ⟨h1, read_aux_processed_mono rest (e.id :: p) (List.mem_cons_self _ _)⟩
        · have h := read_aux_mem rest (e.id :: p) hx
          exact ⟨fun hp => h.1 (List.mem_cons_of_mem _ hp), h.2⟩
      · rw [if_neg h2] at hx ⊢
        exact read_aux_mem rest p hx

/-- An identifier already in the seen-set is never collected by a read pass. -/
theorem read_aux_count_zero {x : String} :
    ∀ (l : List ServerEmail) (p : List String), x ∈ p →
      List.count x ((read_new_emails_aux l p).1.map EmailData.id) = 0
  | [], p, hp => by simp [read_new_emails_aux]
  | e :: rest, p, hp => by
    unfold read_new_emails_aux
    by_cases h1 : e.id ∈ p
    · rw [if_pos h1]; exact read_aux_count_zero rest p hp
    · rw [if_neg h1]
      by_cases h2 : e.fetch_ok = true
      · rw [if_pos h2]
        have hne : (e.id == x) = false := by
          simp only [beq_eq_false_iff_ne, ne_eq]
          exact fun he => h1 (he ▸ hp)
        simp only [List.map_cons, List.count_cons, emailDataOf_id, hne, if_false]
        exact read_aux_count_zero rest (e.id :: p) (List.mem_cons_of_mem _ hp)
      · rw [if_neg h2]; exact read_aux_count_zero rest p hp

/-- A read pass collects each identifier at most once. -/
theorem read_aux_count_le_one {x : String} :
    ∀ (l : List ServerEmail) (p : List String),
      List.count x ((read_new_emails_aux l p).1.map EmailData.id) ≤ 1
  | [], p => by simp [read_new_emails_aux]
  | e :: rest, p => by
    unfold read_new_emails_aux
    by_cases h1 : e.id ∈ p
    · rw [if_pos h1]; exact read_aux_count_le_one rest p
    · rw [if_neg h1]
      by_cases h2 : e.fetch_ok = true
      · rw [if_pos h2]
        simp only [List.map_cons, List.count_cons, emailDataOf_id]
        by_cases hx : e.id = x
        · have hz : List.count x ((read_new_emails_aux rest (e.id :: p)).1.map EmailData.id) = 0 :=
            read_aux_count_zero rest (e.id :: p) (hx ▸ List.mem_cons_self _ _)
          have hb : (e.id == x) = true := by simp [hx]
          simp [hz, hb]
        · have h := read_aux_count_le_one (x := x) rest (e.id :: p)
          have hne : (e.id == x) = false := by simp [hx]
          simp only [hne, Bool.false_eq_true, if_false]
          simpa using h
      · rw [if_neg h2]; exact read_aux_count_le_one rest p

/-- `read_new_emails` never removes anything from the seen-set. -/
theorem read_mono {x : String} {ic : Bool} {mN : Nat} {inbox : List ServerEmail}
    {p : List String} (hx : x ∈ p) : x ∈ (read_new_emails ic mN inbox p).2 := by
  cases ic
  · exact hx
  · exact read_aux_processed_mono _ _ hx

/-- Ids returned by `read_new_emails` were unseen before and are seen after. -/
theorem read_mem {x : String} {ic : Bool} {mN : Nat} {inbox : List ServerEmail}
    {p : List String} (hx : x ∈ (read_new_emails ic mN inbox p).1.map EmailData.id) :
    x ∉ p ∧ x ∈ (read_new_emails ic mN inbox p).2 := by
  cases ic
  · simp [read_new_emails] at hx
  · exact read_aux_mem _ _ hx

/-- `read_new_emails` skips identifiers already in the seen-set. -/
theorem read_count_zero {x : String} {ic : Bool} {mN : Nat} {inbox : List ServerEmail}
    {p : List String} (hp : x ∈ p) :
    List.count x ((read_new_emails ic mN inbox p).1.map EmailData.id) = 0 := by
  cases ic
  · simp [read_new_emails]
  · exact read_aux_count_zero _ _ hp

/-- `read_new_emails` returns each identifier at most once. -/
theorem read_count_le_one {x : String} {ic : Bool} {mN : Nat} {inbox : List ServerEmail}
    {p : List String} :
    List.count x ((read_new_emails ic mN inbox p).1.map EmailData.id) ≤ 1 := by
  cases ic
  · simp [read_new_emails]
  · exact read_aux_count_le_one _ _

/-- The reply attempts of one cycle are exactly the newly read messages. -/
theorem attempt_ids_process {a ic : Bool} {mN : Nat} {s : EmailData → Bool}
    {ib : List ServerEmail} {p : List String} :
    attempt_ids (process_emails a ic mN s ib p).1
      = if a then (read_new_emails ic mN ib p).1.map EmailData.id else [] := by
  cases a <;> simp [process_emails, attempt_ids, List.map_map, Function.comp]

/-- The seen-set after one cycle. -/
theorem process_snd {a ic : Bool} {mN : Nat} {s : EmailData → Bool}
    {ib : List ServerEmail} {p : List String} :
    (process_emails a ic mN s ib p).2
      = if a then (read_new_emails ic mN ib p).2 else p := by
  cases a <;> simp [process_emails]

/-- One poll cycle never removes anything from the seen-set. -/
theorem process_mono {x : String} {a ic : Bool} {mN : Nat} {s : EmailData → Bool}
    {ib : List ServerEmail} {p : List String} (hx : x ∈ p) :
    x ∈ (process_emails a ic mN s ib p).2 := by
  rw [process_snd]
  cases a
  · exact hx
  · exact read_mono hx

/-- An attempted id was unseen before the cycle and is seen after it. -/
theorem process_mem {x : String} {a ic : Bool} {mN : Nat} {s : EmailData → Bool}
    {ib : List ServerEmail} {p : List String}
    (hx : x ∈ attempt_ids (process_emails a ic mN s ib p).1) :
    x ∉ p ∧ x ∈ (process_emails a ic mN s ib p).2 := by
  rw [attempt_ids_process] at hx
  rw [process_snd]
  cases a
  · simp at hx
  · exact read_mem hx

/-- A cycle makes no reply attempt for an identifier already seen. -/
theorem process_count_zero {x : String} {a ic : Bool} {mN : Nat} {s : EmailData → Bool}
    {ib : List ServerEmail} {p : List String} (hp : x ∈ p) :
    List.count x (attempt_ids (process_emails a ic mN s ib p).1) = 0 := by
  rw [attempt_ids_process]
  cases a
  · simp
  · exact read_count_zero hp

/-- A cycle attempts each identifier at most once. -/
theorem process_count_le_one {x : String} {a ic : Bool} {mN : Nat} {s : EmailData → Bool}
    {ib : List ServerEmail} {p : List String} :
    List.count x (attempt_ids (process_emails a ic mN s ib p).1) ≤ 1 := by
  rw [attempt_ids_process]
  cases a
  · simp
  · exact read_count_le_one

/-- The poll loop never removes anything from the seen-set. -/
theorem run_mono {x : String} {a ic : Bool} {mN : Nat} {s : EmailData → Bool} :
    ∀ (cycles : List (List ServerEmail)) (p : List String), x ∈ p →
      x ∈ (run_poll_cycles a ic mN s cycles p).2
  | [], _, hx => hx
  | _ :: rest, _, hx =>
    run_mono rest _ (process_mono hx)

/-- The poll loop makes no reply attempt for an identifier already seen. -/
theorem run_count_zero {x : String} {a ic : Bool} {mN : Nat} {s : EmailData → Bool} :
    ∀ (cycles : List (List ServerEmail)) (p : List String), x ∈ p →
      List.count x (attempt_ids (run_poll_cycles a ic mN s cycles p).1) = 0
  | [], _, _ => by simp [run_poll_cycles, attempt_ids]
  | ib :: rest, p, hx => by
    show List.count x (attempt_ids (_ ++ _)) = 0
    rw [attempt_ids, List.map_append, List.count_append]
    rw [← attempt_ids, ← attempt_ids]
    rw [process_count_zero hx, run_count_zero rest _ (process_mono hx)]

/-- Every attempted identifier ends up in the seen-set. -/
theorem run_mem {x : String} {a ic : Bool} {mN : Nat} {s : EmailData → Bool} :
    ∀ (cycles : List (List ServerEmail)) (p : List String),
      x ∈ attempt_ids (run_poll_cycles a ic mN s cycles p).1 →
      x ∈ (run_poll_cycles a ic mN s cycles p).2
  | [], _, hx => by simp [run_poll_cycles, attempt_ids] at hx
  | ib :: rest, p, hx => by
    rw [show (run_poll_cycles a ic mN s (ib :: rest) p).1
          = (process_emails a ic mN s ib p).1 ++
            (run_poll_cycles a ic mN s rest (process_emails a ic mN s ib p).2).1 from rfl,
        attempt_ids, List.map_append, List.mem_append] at hx
    rw [← attempt_ids, ← attempt_ids] at hx
    rcases hx with hx | hx
    · exact run_mono rest _ (process_mem hx).2
    · exact run_mem rest _ hx

/-- Across any sequence of poll cycles each identifier is attempted at most once. -/
theorem run_count_le_one {x : String} {a ic : Bool} {mN : Nat} {s : EmailData → Bool} :
    ∀ (cycles : List (List ServerEmail)) (p : List String),
      List.count x (attempt_ids (run_poll_cycles a ic mN s cycles p).1) ≤ 1
  | [], _ => by simp [run_poll_cycles, attempt_ids]
  | ib :: rest, p => by
    show List.count x (attempt_ids (_ ++ _)) ≤ 1
    rw [attempt_ids, List.map_append, List.count_append]
    rw [← attempt_ids, ← attempt_ids]
    rcases Nat.eq_zero_or_pos (List.count x (attempt_ids (process_emails a ic mN s ib p).1)) with hz | hpos
    · rw [hz]
      simpa using run_count_le_one rest _
    · have hx : x ∈ attempt_ids (process_emails a ic mN s ib p).1 :=
        List.count_pos_iff.mp hpos
      have hz2 : List.count x (attempt_ids
          (run_poll_cycles a ic mN s rest (process_emails a ic mN s ib p).2).1) = 0 :=
        run_count_zero rest _ (process_mem hx).2
      have h1 := @process_count_le_one x a ic mN s ib p
      omega

/-- C2: within one run, over any sequence of poll cycles and any send
outcomes, a given message identifier triggers at most one reply attempt;
identifiers already in the seen-set are skipped entirely, and every
attempted identifier is in the seen-set afterwards, so a send failure (the
`sendOutcome` oracle) never causes reprocessing. -/
theorem reply_attempted_at_most_once (autoReply imapConnected : Bool) (maxN : Nat)
    (sendOutcome : EmailData → Bool) (cycles : List (List ServerEmail))
    (processed : List String) (mid : String) :
    List.count mid (attempt_ids
        (run_poll_cycles autoReply imapConnected maxN sendOutcome cycles processed).1) ≤ 1
    ∧ (mid ∈ processed →
       List.count mid (attempt_ids
         (run_poll_cycles autoReply imapConnected maxN sendOutcome cycles processed).1) = 0)
    ∧ (mid ∈ attempt_ids
         (run_poll_cycles autoReply imapConnected maxN sendOutcome cycles processed).1 →
       mid ∈ (run_poll_cycles autoReply imapConnected maxN sendOutcome cycles processed).2) :=
  ⟨run_count_le_one cycles processed,
   fun hp => run_count_zero cycles processed hp,
   fun hm => run_mem cycles processed hm⟩

/-- Witness for C2: the same unseen message offered in two consecutive
cycles with a failing send is attempted at most once and ends up marked
seen. -/
theorem reply_attempted_at_most_once_witness :
    List.count "101" (attempt_ids (run_poll_cycles true true 5 (fun _ => false)
        [[ex_server_email], [ex_server_email]] []).1) ≤ 1
    ∧ "101" ∈ (run_poll_cycles true true 5 (fun _ => false)
        [[ex_server_email], [ex_server_email]] []).2 :=
  ⟨(reply_attempted_at_most_once true true 5 (fun _ => false)
      [[ex_server_email], [ex_server_email]] [] "101").1,
   (reply_attempted_at_most_once true true 5 (fun _ => false)
      [[ex_server_email], [ex_server_email]] [] "101").2.2 (by decide)⟩

/-- C3: if the generation service is disabled, not initialized, or its
call fails, `generate_ai_reply` returns exactly the template generator's
string for the same inputs. -/
theorem ai_reply_fallback_law (aiEnabled : Bool)
    (geminiModel : Option (EmailData → Except String String)) (e : EmailData)
    (h : aiEnabled = false ∨ geminiModel = none
         ∨ ∃ oracle err, geminiModel = some oracle ∧ oracle e = Except.error err) :
    generate_ai_reply aiEnabled geminiModel e = generate_improved_mock_reply e := by
  rcases h with h | h | ⟨oracle, err, hm, ho⟩
  · subst h; cases geminiModel <;> rfl
  · subst h; rfl
  · subst hm
    cases aiEnabled
    · rfl
    · simp [generate_ai_reply, generate_gemini_reply, generate_gemini_reply_full, ho]

/-- Witness for C3 at a concrete email with the service disabled. -/
theorem ai_reply_fallback_law_witness :
    generate_ai_reply false none ex_coffee = generate_improved_mock_reply ex_coffee :=
  ai_reply_fallback_law false none ex_coffee (Or.inl rfl)

/-- Counterexample to C4: the `/read` command run on a fresh seen-set adds
the fetched identifier to the seen-set, and run with that identifier
already in the seen-set it returns nothing — so it is neither
non-marking nor unfiltered. -/
theorem read_command_touches_seen_set_cex :
    (read_command true 5 [ex_server_email] []).2 = ["101"]
    ∧ (read_command true 5 [ex_server_email] ["101"]).1 = [] := by decide

/-- C4 as amended: the `/read` command goes through the orchestrator's
`read_new_emails`, so every message it returns was absent from the seen-set
before the call and its identifier is in the seen-set afterwards (the
messages are marked processed for the auto-reply loop too). -/
theorem read_command_shares_seen_set (imapConnected : Bool) (maxN : Nat)
    (inbox : List ServerEmail) (processed : List String) (e : EmailData)
    (he : e ∈ (read_command imapConnected maxN inbox processed).1) :
    e.id ∉ processed ∧ e.id ∈ (read_command imapConnected maxN inbox processed).2 :=
  read_mem (List.mem_map_of_mem EmailData.id he)

/-- Witness for the amended C4 on a concrete one-message inbox. -/
theorem read_command_shares_seen_set_witness :
    (emailDataOf ex_server_email).id ∉ ([] : List String)
    ∧ (emailDataOf ex_server_email).id ∈ (read_command true 5 [ex_server_email] []).2 :=
  read_command_shares_seen_set true 5 [ex_server_email] []
    (emailDataOf ex_server_email) (by decide)

/-- C5 (code bug): on the spec's end-to-end example the generated reply
starts with `Dear Jane,` but contains no newline character at all — the
source f-strings contain the two-character sequence backslash-`n`
(`\\n` in Python source), so the greeting, paragraphs and the
`Best regards,` signature are not separated by line breaks. -/
theorem mock_reply_literal_backslash_n :
    listStartsWith (generate_improved_mock_reply ex_coffee).data ("Dear Jane,".data) = true
    ∧ (generate_improved_mock_reply ex_coffee).data.contains (Char.ofNat 10) = false
    ∧ strHasSub (generate_improved_mock_reply ex_coffee) "\\n" = true := by decide

/-- Counterexample to C6: when the generation call fails, the log line
produced on that path embeds the service's error payload, credential
included. -/
theorem gemini_error_text_logged_cex :
    strHasSub ((generate_gemini_reply_full (fun _ => Except.error leaky_error)
        ex_coffee).2.headD "") "AIzaSECRETKEY123" = true := by decide

/-- C6 as amended: on a generation-call failure the reply falls back to
the template output but the log line embeds the underlying error text;
only the setup failure path logs a fixed line independent of the error. -/
theorem gemini_failure_log_amended (oracle : EmailData → Except String String)
    (e : EmailData) (err err2 : String) (h : oracle e = Except.error err) :
    (generate_gemini_reply_full oracle e).1 = generate_improved_mock_reply e
    ∧ (generate_gemini_reply_full oracle e).2 = ["Gemini reply generation failed: " ++ err]
    ∧ setup_gemini_fail_log err = setup_gemini_fail_log err2 := by
  unfold generate_gemini_reply_full
  rw [h]
  exact ⟨rfl, rfl, rfl⟩

/-- Witness for the amended C6 at a concrete failing oracle. -/
theorem gemini_failure_log_amended_witness :
    (generate_gemini_reply_full (fun _ => Except.error "boom") ex_coffee).1
      = generate_improved_mock_reply ex_coffee
    ∧ (generate_gemini_reply_full (fun _ => Except.error "boom") ex_coffee).2
      = ["Gemini reply generation failed: " ++ "boom"]
    ∧ setup_gemini_fail_log "boom" = setup_gemini_fail_log "other" :=
  gemini_failure_log_amended (fun _ => Except.error "boom") ex_coffee "boom" "other" rfl

/-- The multi-part loop returns the first suitable part that decodes,
i.e. the head of the decodable suitable parts, defaulting to empty. -/
theorem scan_parts_eq_headD : ∀ (parts : List EmailPart),
    scan_parts parts = ((parts.filter suitable_part).filterMap EmailPart.decoded).headD ""
  | [] => rfl
  | p :: rest => by
    unfold scan_parts
    by_cases hs : suitable_part p = true
    · rw [if_pos hs, List.filter_cons_of_pos hs]
      cases hd : p.decoded with
      | some s => simp [List.filterMap_cons, hd]
      | none => simp [List.filterMap_cons, hd, scan_parts_eq_headD rest]
    · rw [if_neg hs, List.filter_cons_of_neg (by simpa using hs), scan_parts_eq_headD rest]

/-- Counterexample to C7: a single-part message whose payload fails to
decode yields the string form of the undecoded payload, not an empty
body. -/
theorem body_decode_failure_nonempty_cex :
    get_email_body (PyEmailMessage.simple none "SGVsbG8=") = "SGVsbG8="
    ∧ ("SGVsbG8=" : String) ≠ "" := by decide

/-- C7 as amended: for a multi-part message the body is the first
plain-text part not flagged as an attachment whose payload decodes (empty
when none); for a single-part message it is the decoded payload, falling
back to the string form of the undecoded payload when decoding fails; in
all cases the result is stripped and no error is raised. -/
theorem get_email_body_amended (parts : List EmailPart) (s payload_str : String) :
    get_email_body (.multipart parts)
      = py_strip (((parts.filter suitable_part).filterMap EmailPart.decoded).headD "")
    ∧ get_email_body (.simple (some s) payload_str) = py_strip s
    ∧ get_email_body (.simple none payload_str) = py_strip payload_str := by
  refine ⟨?_, rfl, rfl⟩
  show py_strip (scan_parts parts) = _
  rw [scan_parts_eq_headD]

/-- Counterexample to C8: `send_reply` called with the submission session
absent does not re-establish it — it reports failure, leaves the session
absent and sends nothing, even though connect and send would succeed. -/
theorem send_reply_no_reconnect_cex :
    send_reply false true "me@x.com" ex_coffee "hello" = (false, false, []) := by decide

/-- C8 as amended: `send_custom_email` re-establishes the submission
session when it is absent, while `send_reply` fails immediately in that
case; both construct a message carrying the from, to and subject header
fields with the body as the sole plain-text content part. -/
theorem send_operations_amended (connect_ok send_ok : Bool)
    (selfE recipient subj bodyTxt replyText : String) (orig : EmailData) :
    (send_custom_email false connect_ok send_ok selfE recipient subj bodyTxt).2.1 = connect_ok
    ∧ send_custom_email true true true selfE recipient subj bodyTxt
        = (true, true, [mk_plain_message selfE recipient subj bodyTxt])
    ∧ send_reply false send_ok selfE orig replyText = (false, false, [])
    ∧ send_reply true true selfE orig replyText
        = (true, true, [mk_plain_message selfE orig.sender ("Re: " ++ orig.subject) replyText]) := by
  refine ⟨?_, rfl, ?_, rfl⟩
  · cases connect_ok <;> cases send_ok <;> rfl
  · cases send_ok <;> rfl

/-- Looking up an operator right after storing a draft finds that draft. -/
theorem dm_lookup_insert (m : DraftMap) (u : Nat) (d : Draft) :
    dm_lookup (dm_insert m u d) u = some d := by
  simp [dm_lookup, dm_insert, List.find?_cons_of_pos]

/-- After removal an operator has no pending draft. -/
theorem dm_lookup_erase_self : ∀ (m : DraftMap) (u : Nat), dm_lookup (dm_erase m u) u = none
  | [], _ => rfl
  | a :: m, u => by
    show dm_lookup (List.filter _ (a :: m)) u = none
    by_cases h : a.1 = u
    · rw [List.filter_cons_of_neg (by simp [h])]
      exact dm_lookup_erase_self m u
    · rw [List.filter_cons_of_pos (by simp [h])]
      show dm_lookup (a :: dm_erase m u) u = none
      have hb : (a.1 == u) = false := by simp [h]
      unfold dm_lookup
      simp only [List.find?, hb]
      exact dm_lookup_erase_self m u

/-- C9: `approve` or `cancel` with no pending draft reports
nothing-pending and leaves the draft map unchanged; `approve` after a
successful `compose` (`/mail` with enough arguments) removes that
operator's draft and performs exactly one send call, with the composed
draft. -/
theorem draft_lifecycle (send : Draft → Bool) (m : DraftMap) (u : Nat) (args : List String)
    (hnone : dm_lookup m u = none) (hargs : 2 ≤ args.length) :
    approve_command send m u = ("No pending email to approve.", m, [])
    ∧ cancel_command m u = ("No pending email to cancel.", m)
    ∧ dm_lookup (approve_command send (mail_command m u args).2 u).2.1 u = none
    ∧ (approve_command send (mail_command m u args).2 u).2.2
        = [⟨args.headD "", "Message from Telegram", " ".intercalate (args.drop 1)⟩] := by
  have hm : (mail_command m u args).2
      = dm_insert m u ⟨args.headD "", "Message from Telegram", " ".intercalate (args.drop 1)⟩ := by
    unfold mail_command
    rw [if_neg (by omega)]
  refine ⟨?_, ?_, ?_, ?_⟩
  · unfold approve_command; rw [hnone]
  · unfold cancel_command; rw [hnone]
  · rw [hm]
    unfold approve_command
    rw [dm_lookup_insert]
    exact dm_lookup_erase_self _ u
  · rw [hm]
    unfold approve_command
    rw [dm_lookup_insert]

/-- Witness for C9 on an empty draft map and a concrete compose. -/
theorem draft_lifecycle_witness :
    approve_command (fun _ => true) [] 7 = ("No pending email to approve.", [], [])
    ∧ cancel_command [] 7 = ("No pending email to cancel.", [])
    ∧ dm_lookup (approve_command (fun _ => true)
        (mail_command [] 7 ["jane@x.com", "hello", "there"]).2 7).2.1 7 = none
    ∧ (approve_command (fun _ => true)
        (mail_command [] 7 ["jane@x.com", "hello", "there"]).2 7).2.2
        = [⟨(["jane@x.com", "hello", "there"] : List String).headD "", "Message from Telegram",
            " ".intercalate ((["jane@x.com", "hello", "there"] : List String).drop 1)⟩] :=
  draft_lifecycle (fun _ => true) [] 7 ["jane@x.com", "hello", "there"] rfl (by decide)

/-- C10: the draft is popped from the map before the send is attempted,
so when the send fails the draft is gone — the map holds nothing for the
operator and a repeated `approve` reports nothing-pending and performs no
send call. -/
theorem approve_removes_draft_before_send (send2 : Draft → Bool) (m : DraftMap)
    (u : Nat) (d : Draft) (h : dm_lookup m u = some d) :
    approve_command (fun _ => false) m u = ("❌ Failed to send email.", dm_erase m u, [d])
    ∧ dm_lookup (dm_erase m u) u = none
    ∧ approve_command send2 (dm_erase m u) u = ("No pending email to approve.", dm_erase m u, []) := by
  refine ⟨?_, dm_lookup_erase_self m u, ?_⟩
  · unfold approve_command; rw [h]; simp
  · unfold approve_command; rw [dm_lookup_erase_self]

/-- Witness for C10 on a concrete one-draft map with a failing send. -/
theorem approve_removes_draft_before_send_witness :
    approve_command (fun _ => false) [(7, ⟨"a@b.c", "s", "b"⟩)] 7
      = ("❌ Failed to send email.", dm_erase [(7, ⟨"a@b.c", "s", "b"⟩)] 7, [⟨"a@b.c", "s", "b"⟩])
    ∧ dm_lookup (dm_erase [(7, ⟨"a@b.c", "s", "b"⟩)] 7) 7 = none
    ∧ approve_command (fun _ => true) (dm_erase [(7, ⟨"a@b.c", "s", "b"⟩)] 7) 7
      = ("No pending email to approve.", dm_erase [(7, ⟨"a@b.c", "s", "b"⟩)] 7, []) :=
  approve_removes_draft_before_send (fun _ => true) [(7, ⟨"a@b.c", "s", "b"⟩)] 7 ⟨"a@b.c", "s", "b"⟩ rfl

/-- Witness for C1: a concrete body containing both `urgent` and `dinner`
is classified social-invitation. -/
theorem mock_reply_priority_order_witness :
    spec_first_matching_category (scan_content ex_urgent_dinner) = ReplyCategory.social :=
  (mock_reply_priority_order ex_urgent_dinner).2 (by decide) (by decide)
